import Mathlib

/-!
Verification development for the litstudy source adapters
(litstudy/sources/bibtex.py, scopus_csv.py, springer.py).

The Python code is embedded shallowly: strings are Lean `String`s, the
`dict` of a parsed BibTeX entry is an association list, and the CSV rows
are structures whose fields are `Option String` (`none` models a missing
key, `some ""` an empty value).  Python code that can raise is modelled
with `PyResult`: `.ok` is a normal return, `.exn` an uncaught exception.
All character-level helpers mirror the ASCII behaviour of the Python
string methods and of the regular expressions appearing in the source.
-/

/-- Result of running a piece of Python code: a value or an uncaught
exception (identified by the exception's class name). -/
inductive PyResult (α : Type) where
  | ok : α → PyResult α
  | exn : String → PyResult α
deriving DecidableEq, Repr

/-- Characters treated as whitespace by Python's `str.strip()` (ASCII part). -/
def isPySpace (c : Char) : Bool :=
  c == ' ' || c == '\t' || c == '\n' || c == '\r' || c == '\x0b' || c == '\x0c'

/-- Python `str.strip()` on a character list. -/
def pyStripL (l : List Char) : List Char :=
  ((l.dropWhile isPySpace).reverse.dropWhile isPySpace).reverse

/-- Python `str.strip()`. -/
def pyStripS (s : String) : String := String.mk (pyStripL s.data)

/-- Python `str.strip(chars)` on a character list: remove leading and
trailing characters belonging to `chars`. -/
def pyStripSetL (chars : List Char) (l : List Char) : List Char :=
  ((l.dropWhile (fun c => chars.contains c)).reverse.dropWhile
      (fun c => chars.contains c)).reverse

/-- Python `str.strip(chars)`. -/
def pyStripSetS (chars : String) (s : String) : String :=
  String.mk (pyStripSetL chars.data s.data)

/-- ASCII lower-casing of one character (Python `str.lower()` on ASCII). -/
def pyLowerC (c : Char) : Char :=
  if 'A' ≤ c ∧ c ≤ 'Z' then Char.ofNat (c.toNat + 32) else c

/-- Python `str.lower()` (ASCII). -/
def pyLowerS (s : String) : String := String.mk (s.data.map pyLowerC)

/-- `leadsList p l` holds when `p` is an initial segment of `l`. -/
def leadsList : List Char → List Char → Bool
  | [], _ => true
  | _ :: _, [] => false
  | a :: as, b :: bs => a == b && leadsList as bs

/-- Value of a digit string (fails on any non-digit character). -/
def digitsValAux : List Char → Nat → Option Nat
  | [], acc => some acc
  | c :: rest, acc =>
      if c.isDigit then digitsValAux rest (acc * 10 + (c.toNat - 48)) else none

/-- Python `int(s)`: surrounding whitespace stripped, optional sign, then a
non-empty digit string; `none` models the `ValueError` that `int` raises
otherwise.  (Python additionally allows digit-group underscores; none of the
inputs relevant here contain them.) -/
def pyInt (s : String) : Option Int :=
  match pyStripL s.data with
  | [] => none
  | '+' :: rest =>
      match rest with
      | [] => none
      | _ => (digitsValAux rest 0).map (fun n => (n : Int))
  | '-' :: rest =>
      match rest with
      | [] => none
      | _ => (digitsValAux rest 0).map (fun n => -(n : Int))
  | l => (digitsValAux l 0).map (fun n => (n : Int))

/-- Fuel-driven splitter on a (non-empty) separator: `sepAt` recognises a
separator at the head of the list and `sepLen` is its length.  With fuel at
least `length + 1` the fuel never runs out.  Mirrors the leftmost,
non-overlapping splitting of Python's `str.split(sep)` and of `re.split`
on a fixed alternation. -/
def splitByFuel (sepAt : List Char → Bool) (sepLen : Nat) :
    Nat → List Char → List Char → List (List Char)
  | 0, cs, acc => [acc.reverse ++ cs]
  | fuel + 1, cs, acc =>
      match cs with
      | [] => [acc.reverse]
      | c :: rest =>
          if sepAt (c :: rest) then
            acc.reverse :: splitByFuel sepAt sepLen fuel (List.drop (sepLen - 1) rest) []
          else
            splitByFuel sepAt sepLen fuel rest (c :: acc)

/-- Python `s.split(sep)` for a non-empty literal separator `sep`. -/
def pySplit (sep : String) (s : String) : List String :=
  (splitByFuel (fun cs => leadsList sep.data cs) sep.data.length
      (s.data.length + 1) s.data []).map String.mk

/-- Splitter for a regular expression of the form `[c...]+`: a maximal run
of characters satisfying `p` separates two tokens.  The flag records
whether the scanner is inside a separator run (the previous token already
emitted).  Mirrors Python `re.split` on such a pattern: a leading or
trailing run produces an empty token, an interior run never does. -/
def splitRunL (p : Char → Bool) : List Char → Bool → List Char → List (List Char)
  | [], inRun, acc => if inRun then [[]] else [acc.reverse]
  | c :: rest, inRun, acc =>
      if p c then
        if inRun then splitRunL p rest true []
        else acc.reverse :: splitRunL p rest true []
      else
        if inRun then splitRunL p rest false [c]
        else splitRunL p rest false (c :: acc)

/-- `re.sub("[ \r\n\t]+", " ", s)`: collapse every run of blank characters
into a single space. -/
def collapseWsL : List Char → List Char
  | [] => []
  | [c] => if c == ' ' || c == '\r' || c == '\n' || c == '\t' then [' '] else [c]
  | c :: d :: rest =>
      if c == ' ' || c == '\r' || c == '\n' || c == '\t' then
        if d == ' ' || d == '\r' || d == '\n' || d == '\t' then collapseWsL (d :: rest)
        else ' ' :: collapseWsL (d :: rest)
      else c :: collapseWsL (d :: rest)

/-- A parsed BibTeX entry: the string-to-string dictionary produced by the
external BibTeX parser (after its LaTeX-to-Unicode customization, an
external collaborator modelled as already applied). -/
abbrev BibEntry := List (String × String)

/-- Python `entry.get(k)`: first binding of `k`, `none` when absent. -/
def dget (e : BibEntry) (k : String) : Option String :=
  (List.find? (fun p => p.1 == k) e).map (fun p => p.2)

/-- The `MONTHS` table of `bibtex.py`, verbatim: note `feburary` (sic) and
the absence of the correct spelling `february`. -/
def MONTHS : List (String × Nat) :=
  [("jan", 1), ("january", 1), ("feb", 2), ("feburary", 2), ("mar", 3),
   ("march", 3), ("apr", 4), ("april", 4), ("may", 5), ("jun", 6),
   ("june", 6), ("jul", 7), ("july", 7), ("aug", 8), ("august", 8),
   ("sep", 9), ("september", 9), ("oct", 10), ("october", 10), ("nov", 11),
   ("november", 11), ("dec", 12), ("december", 12)]

/-- Python `MONTHS.get(k)`. -/
def monthsGet (k : String) : Option Nat :=
  (List.find? (fun p => p.1 == k) MONTHS).map (fun p => p.2)

/-- Character class `[-._;()/:a-zA-Z0-9]` of the crossref DOI regex. -/
def doiAllowed (c : Char) : Bool :=
  c == '-' || c == '.' || c == '_' || c == ';' || c == '(' || c == ')' ||
  c == '/' || c == ':' || ('a' ≤ c && c ≤ 'z') || ('A' ≤ c && c ≤ 'Z') ||
  ('0' ≤ c && c ≤ '9')

/-- Match of the regex `10[.][0-9]{4,9}/[-._;()/:a-zA-Z0-9]{5,}` anchored at
the head of the list.  Since the character after `k < D` digits of a maximal
digit run of length `D` is itself a digit, the greedy `{4,9}` with a
following `/` succeeds exactly when `4 ≤ D ≤ 9` and the run is followed by
`/`; the `{5,}` suffix is the maximal run of allowed characters. -/
def doiMatchAt (cs : List Char) : Option String :=
  match cs with
  | '1' :: '0' :: '.' :: rest =>
      let ds := rest.takeWhile Char.isDigit
      if 4 ≤ ds.length ∧ ds.length ≤ 9 then
        match rest.drop ds.length with
        | '/' :: rest2 =>
            let suf := rest2.takeWhile doiAllowed
            if 5 ≤ suf.length then
              some (String.mk ('1' :: '0' :: '.' :: (ds ++ '/' :: suf)))
            else none
        | _ => none
      else none
  | _ => none

/-- `re.search` of the DOI pattern: leftmost match wins. -/
def doiSearch : List Char → Option String
  | [] => none
  | c :: rest =>
      match doiMatchAt (c :: rest) with
      | some m => some m
      | none => doiSearch rest

/-- `re.search` of the DOI pattern on a string. -/
def doiSearchS (s : String) : Option String := doiSearch s.data

/-- Strip a leading `https://doi.org/` prefix (16 characters). -/
def stripDoiUrl (d : String) : String :=
  if leadsList "https://doi.org/".data d.data then String.mk (d.data.drop 16) else d

/-- `find_doi` of `bibtex.py`: the stripped `doi` field when non-empty,
otherwise the first regex match over the fields `doi`, `link`, `url`,
`howpublished` in that order; a leading `https://doi.org/` is removed from
the result. -/
def find_doi (e : BibEntry) : Option String :=
  let result := pyStripS ((dget e "doi").getD "")
  let d :=
    if result = "" then
      List.foldl
        (fun acc k =>
          match acc with
          | some x => some x
          | none =>
              match dget e k with
              | some v => doiSearch v.data
              | none => none)
        none ["doi", "link", "url", "howpublished"]
    else some result
  d.map stripDoiUrl

/-- Modelled from the spec: `DocumentIdentifier` lives in `litstudy/types.py`,
which is not part of the adapter sources; per the spec it stores the title
passed at construction together with the optional external ids
(doi / pubmed / eid) and is immutable thereafter. -/
structure DocumentIdentifier where
  title : Option String
  doi : Option String
  pubmed : Option String
  eid : Option String
deriving DecidableEq, Repr

/-- A `BibDocument`: the identifier built in `__init__` plus the raw entry. -/
structure BibDocRec where
  identifier : DocumentIdentifier
  entry : BibEntry
deriving DecidableEq, Repr

/-- `BibDocument.__init__`: the identifier is built from the *raw* (unstripped)
title string `entry["title"]` together with `find_doi` and the `pmid` field.
(`entry["title"]` would raise `KeyError` on a titleless entry; `load_bibtex`
only constructs documents for entries whose title is present and non-empty.) -/
def mkBibDocument (e : BibEntry) : BibDocRec :=
  { identifier :=
      { title := dget e "title", doi := find_doi e, pubmed := dget e "pmid",
        eid := none },
    entry := e }

/-- `BibDocument.title`: the raw title with surrounding braces stripped
(`.strip("\x7b\x7d")`); `none` models the `AttributeError` raised when the
`title` field is absent. -/
def bib_title (e : BibEntry) : Option String :=
  (dget e "title").map (fun t => pyStripSetS "\x7b\x7d" t)

/-- `BibDocument.publication_year`: `int(entry["year"])` with every
exception (missing key or unparsable value) giving `None`; a parsed value
below 100 is shifted into the 1900s. -/
def bib_publication_year (e : BibEntry) : Option Int :=
  match dget e "year" with
  | none => none
  | some s =>
      match pyInt s with
      | none => none
      | some y => some (if y < 100 then y + 1900 else y)

/-- `BibDocument.publication_month`: case-insensitive lookup of the `month`
field (default `""`) in `MONTHS`. -/
def bib_publication_month (e : BibEntry) : Option Nat :=
  monthsGet (pyLowerS ((dget e "month").getD ""))

/-- `BibDocument.publication_date`: `datetime.date(year, month or 1, 1)`;
the `date` constructor (external library) validates `1 ≤ year ≤ 9999` and
raises `ValueError` outside that range; the month always lies in 1..12
here.  `none` year gives `None`. -/
def bib_publication_date (e : BibEntry) : PyResult (Option (Int × Nat × Nat)) :=
  match bib_publication_year e with
  | none => .ok none
  | some y =>
      if 1 ≤ y ∧ y ≤ 9999 then
        .ok (some (y, (bib_publication_month e).getD 1, 1))
      else .exn "ValueError"

/-- Separator of `re.split(" (?:and|And|AND) ", content)` anchored at the
head of the list (the three alternatives are mutually exclusive at any
position and all have length 5). -/
def andSep (cs : List Char) : Bool :=
  leadsList " and ".data cs || leadsList " And ".data cs || leadsList " AND ".data cs

/-- `re.split(" (?:and|And|AND) ", s)`. -/
def splitAndS (s : String) : List String :=
  (splitByFuel andSep 5 (s.data.length + 1) s.data []).map String.mk

/-- Rewriting of one author name in `BibDocument.authors`:
`parts = author.strip().split(", ")`; with more than one part the result is
`parts[0] ++ ", " ++ parts[1][0] ++ "." ++ join of parts[2:-1]` (note the
slice drops the *last* part), where `parts[1][0]` raises `IndexError`
(modelled as `none`) when `parts[1]` is empty; with a single part the raw
name is kept. -/
def rewriteBibName (author : String) : Option String :=
  match pySplit ", " (pyStripS author) with
  | p0 :: p1 :: rest =>
      match p1.data with
      | [] => none
      | c :: _ => some (p0 ++ ", " ++ String.mk [c] ++ "." ++ String.join rest.dropLast)
  | _ => some author

/-- `BibDocument.authors` (dict branch): whitespace collapsed, split on the
`and` separators, a trailing `others` dropped, every name rewritten and
finally stripped.  `.ok none` models the `return None` for a missing or
empty field, `.exn` the uncaught `IndexError` of `parts[1][0]`. -/
def bib_authors (e : BibEntry) : PyResult (Option (List String)) :=
  match dget e "author" with
  | none => .ok none
  | some content =>
      if content = "" then .ok none
      else
        let names := splitAndS (String.mk (collapseWsL content.data))
        let names := if names.getLast? = some "others" then names.dropLast else names
        match names.mapM rewriteBibName with
        | some res => .ok (some (res.map pyStripS))
        | none => .exn "IndexError"

/-- `BibDocument.keywords` tokens: `re.split("[;,\n\r]+", content)`. -/
def kwTokens (s : String) : List String :=
  (splitRunL (fun c => c == ';' || c == ',' || c == '\n' || c == '\r')
      s.data false []).map String.mk

/-- `BibDocument.keywords`: `none` for a missing or empty field, otherwise
every *non-empty raw* token stripped and lower-cased (the emptiness filter
runs before stripping, exactly as in the list comprehension
`[w.strip().lower() for w in re.split(...) if w]`). -/
def bib_keywords (e : BibEntry) : Option (List String) :=
  match dget e "keywords" with
  | none => none
  | some content =>
      if content = "" then none
      else
        some (((kwTokens content).filter (fun w => w != "")).map
          (fun w => pyLowerS (pyStripS w)))

/-- `load_bibtex`, taking the entry list produced by the external BibTeX
parser: keep exactly the entries whose `title` is present and non-empty,
in order, and wrap each in a `BibDocument`. -/
def load_bibtex (entries : List BibEntry) : List BibDocRec :=
  (entries.filter (fun e => (dget e "title").getD "" != "")).map mkBibDocument

/-- A row of a Scopus CSV export, as the dictionary produced by
`csv.DictReader`: each field is `none` when its column is absent from the
header, otherwise the (possibly empty) cell text. -/
structure ScopusEntry where
  title : Option String
  authorsF : Option String
  year : Option String
  citedBy : Option String
  doi : Option String
  pubmedId : Option String
  eid : Option String
deriving DecidableEq, Repr

/-- A `ScopusCsvDocument`: identifier built in `__init__` plus the raw row. -/
structure ScopusDocRec where
  identifier : DocumentIdentifier
  entry : ScopusEntry
deriving DecidableEq, Repr

/-- `ScopusCsvDocument.__init__`: the identifier takes `DOI`, `Title`,
`PubMed ID` and `EID` exactly as `entry.get` returns them. -/
def mkScopusDoc (e : ScopusEntry) : ScopusDocRec :=
  { identifier :=
      { title := e.title, doi := e.doi, pubmed := e.pubmedId, eid := e.eid },
    entry := e }

/-- `ScopusCsvDocument.title`: `entry.get("Title") or None`. -/
def scopus_title (e : ScopusEntry) : Option String :=
  match e.title with
  | none => none
  | some t => if t = "" then none else some t

/-- `ScopusCsvDocument.authors` (dict branch): `entry.get("Authors")` is
split on `;`, each token truncated at its first `.` and stripped, with an
empty affiliation.  A missing `Authors` column makes `auths` equal to
`None` and `None.split` raises `AttributeError`. -/
def scopus_authors (e : ScopusEntry) : PyResult (List (String × String)) :=
  match e.authorsF with
  | none => .exn "AttributeError"
  | some s =>
      .ok ((pySplit ";" s).map (fun a => (pyStripS ((pySplit "." a).headD ""), "")))

/-- `ScopusCsvDocument.publication_year`: falsy field gives `None`, an
unparsable value is caught by the bare `except` and gives `None`. -/
def scopus_publication_year (e : ScopusEntry) : Option Int :=
  match e.year with
  | none => none
  | some s => if s = "" then none else pyInt s

/-- `ScopusCsvDocument.citation_count`: falsy field gives `None`, but the
final `int(citation_count)` is *not* guarded — a non-empty non-numeric
`Cited by` value raises `ValueError`. -/
def scopus_citation_count (e : ScopusEntry) : PyResult (Option Int) :=
  match e.citedBy with
  | none => .ok none
  | some s =>
      if s = "" then .ok none
      else
        match pyInt s with
        | some n => .ok (some n)
        | none => .exn "ValueError"

/-- `load_scopus_csv`, taking the rows produced by `csv.DictReader`: every
row becomes a document; there is no title filter. -/
def load_scopus_csv (rows : List ScopusEntry) : List ScopusDocRec :=
  rows.map mkScopusDoc

/-- A row of a Springer Link CSV export (`csv.DictReader` dictionary). -/
structure SpringerEntry where
  itemTitle : Option String
  itemDoi : Option String
  authorsF : Option String
  authorAff : Option String
  pubYear : Option String
deriving DecidableEq, Repr

/-- A `SpringerDocument`: identifier built in `__init__` plus the raw row. -/
structure SpringerDocRec where
  identifier : DocumentIdentifier
  entry : SpringerEntry
deriving DecidableEq, Repr

/-- `SpringerDocument.__init__`: `doi = entry.get("Item DOI") or None`,
`title = entry.get("Item Title")`. -/
def mkSpringerDoc (e : SpringerEntry) : SpringerDocRec :=
  { identifier :=
      { title := e.itemTitle,
        doi := match e.itemDoi with | some "" => none | d => d,
        pubmed := none, eid := none },
    entry := e }

/-- `load_springer_csv`: every row becomes a document; no title filter. -/
def load_springer_csv (rows : List SpringerEntry) : List SpringerDocRec :=
  rows.map mkSpringerDoc

/-- Finalization of an accumulated segment in `extract_author_names`:
`split(' ')`; with more than one part the segment becomes
`parts[-1] ++ ", " ++ parts[0][0] ++ "."`, where the `IndexError` of
`parts[0][0]` on an empty first part is caught and logged (nothing is
appended); with a single part the segment is kept verbatim. -/
def springerFinalize (current : String) (names : List String) : List String :=
  let parts := pySplit " " current
  if 1 < parts.length then
    match (parts.headD "").data with
    | [] => names
    | c :: _ => names ++ [parts.getLastD "" ++ ", " ++ String.mk [c] ++ "."]
  else names ++ [current]

/-- The character scan of `extract_author_names`: a new segment starts when
the current character is uppercase, its index exceeds 1 and the previous
character is lowercase.  `i` is the index of the head of the remaining
list and `prev` the character before it (unused while `i ≤ 1`). -/
def extractAuthorsAux : List Char → Nat → Char → String → List String → List String
  | [], _, _, current, names => springerFinalize current names
  | c :: rest, i, prev, current, names =>
      if c.isUpper ∧ 1 < i ∧ prev.isLower then
        extractAuthorsAux rest (i + 1) c (String.mk [c]) (springerFinalize current names)
      else
        extractAuthorsAux rest (i + 1) c (current ++ String.mk [c]) names

/-- `extract_author_names` of `springer.py`. -/
def extract_author_names (s : String) : List String :=
  extractAuthorsAux s.data 0 'A' "" []

/-- `SpringerDocument.authors` (dict branch): names from
`extract_author_names(entry.get("Authors"))` — iterating `None` raises
`TypeError` when the column is absent — zipped against the `"; "`-split of
`entry.get("Author Affiliations", "")`; on a length mismatch a warning is
logged (the returned flag) and every affiliation is replaced by `None`. -/
def springer_authors (e : SpringerEntry) :
    PyResult (List (String × Option String) × Bool) :=
  match e.authorsF with
  | none => .exn "TypeError"
  | some s =>
      let authors := extract_author_names s
      let affs := pySplit "; " (e.authorAff.getD "")
      if authors.length ≠ affs.length then
        .ok (authors.map (fun a => (pyStripS a, none)), true)
      else
        .ok ((authors.zip (affs.map some)).map (fun p => (pyStripS p.1, p.2)), false)

/-- `SpringerAuthor.affiliations`: a falsy or literal `"NA"` affiliation is
`None`, otherwise a one-element affiliation list. -/
def springer_author_affiliations (aff : Option String) : Option (List String) :=
  match aff with
  | none => none
  | some a => if a = "" ∨ a = "NA" then none else some [a]

/-- `SpringerDocument.publication_year`: `int(entry["Publication Year"])`
with every exception giving `None`. -/
def springer_publication_year (e : SpringerEntry) : Option Int :=
  match e.pubYear with
  | none => none
  | some s => pyInt s

lemma length_dropWhile_le' {α : Type} (p : α → Bool) (l : List α) :
    (List.dropWhile p l).length ≤ l.length :=
  (List.dropWhile_sublist p).length_le

lemma pyStripSetL_cons_length_lt (chars : List Char) (c : Char) (l : List Char)
    (h : chars.contains c = true) :
    (pyStripSetL chars (c :: l)).length < (c :: l).length := by
  unfold pyStripSetL
  rw [List.dropWhile_cons]
  simp only [h, if_true]
  simp only [List.length_reverse, List.length_cons]
  have h1 : (List.dropWhile (fun x => chars.contains x) l).length ≤ l.length :=
    length_dropWhile_le' _ _
  have h2 : (List.dropWhile (fun x => chars.contains x)
      (List.dropWhile (fun x => chars.contains x) l).reverse).length ≤
      (List.dropWhile (fun x => chars.contains x) l).reverse.length :=
    length_dropWhile_le' _ _
  simp only [List.length_reverse] at h2
  omega

lemma stripBraces_ne (t : String) :
    pyStripSetS "\x7b\x7d" ("\x7b" ++ t ++ "\x7d") ≠ "\x7b" ++ t ++ "\x7d" := by
  obtain ⟨lt⟩ := t
  intro hEq
  have hdata : pyStripSetL ['\x7b', '\x7d'] ('\x7b' :: (lt ++ ['\x7d'])) =
      '\x7b' :: (lt ++ ['\x7d']) := congrArg String.data hEq
  have hlt := pyStripSetL_cons_length_lt ['\x7b', '\x7d'] '\x7b' (lt ++ ['\x7d'])
    (by decide)
  rw [hdata] at hlt
  exact Nat.lt_irrefl _ hlt

/-- Claim C1 (amended): `load_bibtex` returns exactly the title-bearing
entries, one document each, in input order; `load_scopus_csv` and
`load_springer_csv` perform no title filtering at all — every parsed row
becomes one document, in input order. -/
theorem load_title_filtering_amended :
    (∀ (es : List BibEntry) (d : BibDocRec), d ∈ load_bibtex es →
        ∃ t, dget d.entry "title" = some t ∧ t ≠ "") ∧
    (∀ (es : List BibEntry) (e : BibEntry), e ∈ es →
        (dget e "title").getD "" ≠ "" → mkBibDocument e ∈ load_bibtex es) ∧
    (∀ rows : List ScopusEntry, load_scopus_csv rows = rows.map mkScopusDoc) ∧
    (∀ rows : List SpringerEntry, load_springer_csv rows = rows.map mkSpringerDoc) := by
  refine ⟨?_, ?_, fun _ => rfl, fun _ => rfl⟩
  · intro es d hd
    simp only [load_bibtex, List.mem_map, List.mem_filter] at hd
    obtain ⟨e, ⟨_, ht⟩, rfl⟩ := hd
    rw [bne_iff_ne] at ht
    show ∃ t, dget e "title" = some t ∧ t ≠ ""
    cases h : dget e "title" with
    | none => rw [h] at ht; simp at ht
    | some t =>
        rw [h, Option.getD_some] at ht
        exact ⟨t, rfl, ht⟩
  · intro es e he ht
    simp only [load_bibtex, List.mem_map]
    refine ⟨e, ?_, rfl⟩
    rw [List.mem_filter]
    exact ⟨he, by rwa [bne_iff_ne]⟩

/-- Claim C1 witness: a concrete titled entry appears in the BibTeX output. -/
theorem load_title_filtering_witness :
    mkBibDocument [("title", "T")] ∈ load_bibtex [[("title", "T")]] :=
  load_title_filtering_amended.2.1 _ _ (List.mem_cons_self _ _) (by decide)

/-- Claim C1 counterexample: a Scopus row with an empty `Title` (its `title`
accessor is `None`) and a Springer row with no title still produce one
document each, so the CSV loaders do not exclude title-less entries. -/
theorem load_csv_titleless_cex :
    scopus_title ⟨some "", none, none, none, none, none, none⟩ = none ∧
    load_scopus_csv [⟨some "", none, none, none, none, none, none⟩] =
      [mkScopusDoc ⟨some "", none, none, none, none, none, none⟩] ∧
    (load_scopus_csv [⟨some "", none, none, none, none, none, none⟩]).length = 1 ∧
    (load_springer_csv [⟨none, none, none, none, none⟩]).length = 1 :=
  ⟨rfl, rfl, rfl, rfl⟩

/-- Claim C2 (amended): the scan starts a new segment exactly at an
uppercase character at index above 1 preceded by a lowercase character,
and a finalized segment is rewritten to `Last, F.` only when it contains a
space.  The space-free input `JohnSmithJaneDoe` therefore yields the four
verbatim segments `John`, `Smith`, `Jane`, `Doe`; the spaced input
`John SmithJane Doe` yields `Smith, J.` and `Doe, J.`; a name with an
internal uppercase letter such as `McDonald` is split incorrectly. -/
theorem extract_author_names_amended :
    extract_author_names "JohnSmithJaneDoe" = ["John", "Smith", "Jane", "Doe"] ∧
    extract_author_names "John SmithJane Doe" = ["Smith, J.", "Doe, J."] ∧
    extract_author_names "McDonald" = ["Mc", "Donald"] :=
  ⟨rfl, rfl, rfl⟩

/-- Claim C2 counterexample: `JohnSmithJaneDoe` does not yield the two
names the claim states; it yields four. -/
theorem extract_author_names_cex :
    extract_author_names "JohnSmithJaneDoe" ≠ ["Smith, J.", "Doe, J."] ∧
    (extract_author_names "JohnSmithJaneDoe").length = 4 :=
  ⟨by decide, rfl⟩

/-- Claim C3 (amended): the year accessors and a missing or empty
`Cited by` degrade to an absent value, but the Scopus `citation_count`
accessor raises `ValueError` on a non-empty non-numeric `Cited by` value,
and the Scopus `authors` accessor raises `AttributeError` when the
`Authors` field is missing. -/
theorem scopus_field_errors_amended :
    (∀ (e : ScopusEntry) (s : String), e.citedBy = some s → s ≠ "" →
        pyInt s = none → scopus_citation_count e = .exn "ValueError") ∧
    (∀ e : ScopusEntry, e.authorsF = none →
        scopus_authors e = .exn "AttributeError") ∧
    (∀ e : ScopusEntry, e.citedBy = none → scopus_citation_count e = .ok none) ∧
    (∀ (e : ScopusEntry) (s : String), e.year = some s → pyInt s = none →
        scopus_publication_year e = none) ∧
    (∀ (e : SpringerEntry) (s : String), e.pubYear = some s → pyInt s = none →
        springer_publication_year e = none) := by
  refine ⟨?_, ?_, ?_, ?_, ?_⟩
  · intro e s h1 h2 h3; simp [scopus_citation_count, h1, h2, h3]
  · intro e h; simp [scopus_authors, h]
  · intro e h; simp [scopus_citation_count, h]
  · intro e s h1 h2
    by_cases hs : s = ""
    · simp [scopus_publication_year, h1, hs]
    · simp [scopus_publication_year, h1, hs, h2]
  · intro e s h1 h2; simp [springer_publication_year, h1, h2]

/-- Claim C3 witness: a concrete non-numeric citation count raises. -/
theorem scopus_field_errors_witness :
    scopus_citation_count ⟨none, none, none, some "12a", none, none, none⟩ =
      .exn "ValueError" :=
  scopus_field_errors_amended.1 _ "12a" rfl (by decide) rfl

/-- Claim C3 counterexample: `Cited by = "N/A"` raises `ValueError` and a
missing `Authors` field raises `AttributeError`, instead of the absent
results the claim asserts. -/
theorem scopus_raises_cex :
    scopus_citation_count ⟨none, none, none, some "N/A", none, none, none⟩ =
      .exn "ValueError" ∧
    scopus_authors ⟨none, none, none, none, none, none, none⟩ =
      .exn "AttributeError" :=
  ⟨rfl, rfl⟩

/-- Claim C4: `find_doi` returns the stripped `doi` field when it is
non-empty after trimming; otherwise the first regex match over the
remaining fields scanned in order (shown for the `url` case and for the
all-absent case, which gives `none`); a leading `https://doi.org/` prefix
is removed; the two concrete examples of the spec hold. -/
theorem find_doi_spec :
    (∀ (e : BibEntry) (s : String), dget e "doi" = some s → pyStripS s ≠ "" →
        find_doi e = some (stripDoiUrl (pyStripS s))) ∧
    (∀ e : BibEntry, dget e "doi" = none → dget e "link" = none →
        dget e "url" = none → dget e "howpublished" = none →
        find_doi e = none) ∧
    (∀ (e : BibEntry) (u m : String), dget e "doi" = none →
        dget e "link" = none → dget e "url" = some u → doiSearchS u = some m →
        find_doi e = some (stripDoiUrl m)) ∧
    find_doi [("doi", "https://doi.org/10.1109/ABC.2020.123")] =
      some "10.1109/ABC.2020.123" ∧
    find_doi [("url", "see 10.1000/xyz123 for details")] =
      some "10.1000/xyz123" := by
  have hempty : pyStripS "" = "" := rfl
  refine ⟨?_, ?_, ?_, rfl, rfl⟩
  · intro e s h1 h2
    simp [find_doi, h1, h2]
  · intro e h1 h2 h3 h4
    simp [find_doi, h1, h2, h3, h4, hempty]
  · intro e u m h1 h2 h3 h4
    rw [doiSearchS] at h4
    simp [find_doi, h1, h2, h3, h4, hempty]

/-- Claim C4 witness: a concrete trimmed `doi` field value is returned
with the URL prefix stripped. -/
theorem find_doi_witness :
    find_doi [("doi", " 10.1234/abcde ")] = some "10.1234/abcde" :=
  (find_doi_spec.1 [("doi", " 10.1234/abcde ")] " 10.1234/abcde " rfl
    (by decide)).trans (by decide)

/-- Claim C5 (amended): a missing author field gives no authors; a name
whose stripped form splits on `", "` into more than one part is rewritten
as the first part, a comma, the first character of the second part and a
dot, followed by the remaining parts *except the last* concatenated
without spaces; the split separator is the literal ` and ` in exactly the
three casings `and`, `And`, `AND`; a trailing `others` is dropped; names
without a comma pass through unchanged.  The spec's example holds. -/
theorem bib_authors_amended :
    (∀ e : BibEntry, dget e "author" = none → bib_authors e = .ok none) ∧
    (∀ (author p0 p1 : String) (rest : List String) (c : Char) (cs : List Char),
        pySplit ", " (pyStripS author) = p0 :: p1 :: rest → p1.data = c :: cs →
        rewriteBibName author =
          some (p0 ++ ", " ++ String.mk [c] ++ "." ++ String.join rest.dropLast)) ∧
    bib_authors [("author", "Smith, John and Doe, Jane and others")] =
      .ok (some ["Smith, J.", "Doe, J."]) ∧
    bib_authors [("author", "Smith, John AND Doe, Jane")] =
      .ok (some ["Smith, J.", "Doe, J."]) ∧
    bib_authors [("author", "Smith, John And Doe, Jane")] =
      .ok (some ["Smith, J.", "Doe, J."]) ∧
    bib_authors [("author", "Mozart and Beethoven")] =
      .ok (some ["Mozart", "Beethoven"]) := by
  refine ⟨?_, ?_, rfl, rfl, rfl, rfl⟩
  · intro e h; simp [bib_authors, h]
  · intro author p0 p1 rest c cs h1 h2
    simp [rewriteBibName, h1, h2]

/-- Claim C5 witness: a missing author field yields no authors. -/
theorem bib_authors_witness : bib_authors [] = .ok none :=
  bib_authors_amended.1 [] rfl

/-- Claim C5 counterexample: with two middle tokens the last one is
dropped (`parts[2:-1]`), so `Smith, John, Paul, Ringo` becomes
`Smith, J.Paul`, not `Smith, J.PaulRingo`; and the separator is not fully
case-insensitive: ` aNd ` does not split, leaving one author where the
claim requires two. -/
theorem bib_authors_cex :
    bib_authors [("author", "Smith, John, Paul, Ringo")] =
      .ok (some ["Smith, J.Paul"]) ∧
    "Smith, J.Paul" ≠ "Smith, J.PaulRingo" ∧
    bib_authors [("author", "Smith, John aNd Doe, Jane")] =
      .ok (some ["Smith, J."]) ∧
    (["Smith, J."] : List String).length ≠ 2 :=
  ⟨rfl, by decide, rfl, by decide⟩

/-- Claim C6 (amended): the `month` field is lower-cased and looked up in
the fixed `MONTHS` table, which covers the English month names and common
abbreviations except that February's full name appears only as the
misspelling `feburary` (the correct spelling `february` is absent and
yields no month); unknown or absent values give no month and
`publication_date` then defaults the month to 1; `Feburary` in any letter
case yields month 2. -/
theorem bib_month_amended :
    (∀ (e : BibEntry) (s : String), dget e "month" = some s →
        pyLowerS s = "feburary" → bib_publication_month e = some 2) ∧
    (∀ e : BibEntry, dget e "month" = none → bib_publication_month e = none) ∧
    monthsGet "feburary" = some 2 ∧
    monthsGet "february" = none ∧
    bib_publication_month [("month", "FeBuRaRy")] = some 2 ∧
    (∀ (e : BibEntry) (y : Int), bib_publication_year e = some y →
        bib_publication_month e = none → 1 ≤ y → y ≤ 9999 →
        bib_publication_date e = .ok (some (y, 1, 1))) := by
  refine ⟨?_, ?_, rfl, rfl, rfl, ?_⟩
  · intro e s h1 h2
    show monthsGet (pyLowerS ((dget e "month").getD "")) = some 2
    rw [h1, Option.getD_some, h2]
    rfl
  · intro e h
    show monthsGet (pyLowerS ((dget e "month").getD "")) = none
    rw [h]
    rfl
  · intro e y h1 h2 h3 h4
    simp [bib_publication_date, h1, h2, h3, h4]

/-- Claim C6 witness: an all-caps `FEBURARY` month yields month 2. -/
theorem bib_month_witness :
    bib_publication_month [("month", "FEBURARY")] = some 2 :=
  bib_month_amended.1 _ "FEBURARY" rfl rfl

/-- Claim C6 counterexample: the correctly spelled `February` is not in
the table, so it yields no month, contradicting the claim that the table
covers the English month names. -/
theorem bib_month_february_cex :
    monthsGet "february" = none ∧
    bib_publication_month [("month", "February")] = none ∧
    bib_publication_month [("month", "feb")] = some 2 :=
  ⟨rfl, rfl, rfl⟩

/-- Claim C7: whenever the number of extracted author names differs from
the number of `"; "`-separated affiliation tokens, the Springer `authors`
accessor returns normally (no exception), flags the warning, and gives
every author an absent affiliation. -/
theorem springer_affiliation_mismatch_spec :
    ∀ (e : SpringerEntry) (s : String), e.authorsF = some s →
      (extract_author_names s).length ≠
        (pySplit "; " (e.authorAff.getD "")).length →
      springer_authors e =
          .ok ((extract_author_names s).map (fun a => (pyStripS a, none)), true) ∧
      ∀ p ∈ (extract_author_names s).map
          (fun a => (pyStripS a, (none : Option String))),
        springer_author_affiliations p.2 = none := by
  intro e s h1 h2
  constructor
  · simp only [springer_authors, h1]
    rw [if_pos h2]
  · intro p hp
    simp only [List.mem_map] at hp
    obtain ⟨a, _, rfl⟩ := hp
    rfl

/-- Claim C7 witness: two parsed authors against one affiliation token
give both authors an absent affiliation, with the warning flag set. -/
theorem springer_affiliation_mismatch_witness :
    springer_authors ⟨none, none, some "John SmithJane Doe", some "Uni A", none⟩ =
      .ok ([("Smith, J.", none), ("Doe, J.", none)], true) :=
  ((springer_affiliation_mismatch_spec _ "John SmithJane Doe" rfl
    (by decide)).1).trans (by decide)

/-- Claim C8: `publication_year` yields no year when the field is missing
or unparsable, adds 1900 to any parsed value below 100, and on the spec's
examples maps `"99"` to 1999 and `"2003"` to 2003. -/
theorem bib_publication_year_spec :
    (∀ e : BibEntry, dget e "year" = none → bib_publication_year e = none) ∧
    (∀ (e : BibEntry) (s : String), dget e "year" = some s → pyInt s = none →
        bib_publication_year e = none) ∧
    (∀ (e : BibEntry) (s : String) (y : Int), dget e "year" = some s →
        pyInt s = some y →
        bib_publication_year e = some (if y < 100 then y + 1900 else y)) ∧
    bib_publication_year [("year", "99")] = some 1999 ∧
    bib_publication_year [("year", "2003")] = some 2003 := by
  refine ⟨?_, ?_, ?_, rfl, rfl⟩
  · intro e h; simp [bib_publication_year, h]
  · intro e s h1 h2; simp [bib_publication_year, h1, h2]
  · intro e s y h1 h2; simp [bib_publication_year, h1, h2]

/-- Claim C8 witness: a concrete four-digit year is returned unchanged. -/
theorem bib_publication_year_witness :
    bib_publication_year [("year", "1984")] = some 1984 :=
  (bib_publication_year_spec.2.2.1 [("year", "1984")] "1984" 1984 rfl
    rfl).trans (by decide)

/-- Claim C9 (amended): the keywords field is split on runs of `;`, `,`
and newline characters; tokens that are empty *before* trimming are
dropped and the rest are trimmed and lowercased — so every output element
comes from a non-empty raw token, but a whitespace-only raw token still
yields an empty string in the output. -/
theorem bib_keywords_amended :
    (∀ e : BibEntry, dget e "keywords" = none → bib_keywords e = none) ∧
    (∀ (e : BibEntry) (c : String) (ks : List String) (x : String),
        dget e "keywords" = some c → bib_keywords e = some ks → x ∈ ks →
        ∃ w, w ∈ kwTokens c ∧ w ≠ "" ∧ x = pyLowerS (pyStripS w)) ∧
    bib_keywords [("keywords", "Alpha; BETA ,gamma\nDelta;")] =
      some ["alpha", "beta", "gamma", "delta"] := by
  refine ⟨?_, ?_, rfl⟩
  · intro e h; simp [bib_keywords, h]
  · intro e c ks x h1 h2 hx
    by_cases hc : c = ""
    · rw [show bib_keywords e = none from by simp [bib_keywords, h1, hc]] at h2
      exact absurd h2 (by simp)
    · have hk : ks = ((kwTokens c).filter (fun w => w != "")).map
          (fun w => pyLowerS (pyStripS w)) := by
        have hb : bib_keywords e = some (((kwTokens c).filter
            (fun w => w != "")).map (fun w => pyLowerS (pyStripS w))) := by
          simp [bib_keywords, h1, hc]
        rw [hb] at h2
        exact (Option.some_inj.mp h2).symm
      subst hk
      simp only [List.mem_map, List.mem_filter] at hx
      obtain ⟨w, ⟨hw1, hw2⟩, hw3⟩ := hx
      exact ⟨w, hw1, by rwa [bne_iff_ne] at hw2, hw3.symm⟩

/-- Claim C9 witness: a concrete output element arises from a non-empty
raw token of the split. -/
theorem bib_keywords_witness :
    ∃ w, w ∈ kwTokens "X; Y" ∧ w ≠ "" ∧ "x" = pyLowerS (pyStripS w) :=
  bib_keywords_amended.2.1 [("keywords", "X; Y")] "X; Y" ["x", "y"] "x"
    rfl rfl (List.mem_cons_self _ _)

/-- Claim C9 counterexample: the emptiness filter runs before trimming, so
the whitespace-only middle token of `a; ;b` survives as the empty string
in the output, contradicting the claim that no element is empty. -/
theorem bib_keywords_empty_token_cex :
    bib_keywords [("keywords", "a; ;b")] = some ["a", "", "b"] ∧
    "" ∈ ["a", "", "b"] :=
  ⟨rfl, by simp⟩

/-- Claim C10: the identifier built in the constructor carries the raw
title while the `title` accessor strips surrounding braces, so for a
title wrapped in braces the two differ. -/
theorem bib_title_identifier_divergence :
    ∀ (e : BibEntry) (raw t : String), dget e "title" = some raw →
      raw = "\x7b" ++ t ++ "\x7d" →
      (mkBibDocument e).identifier.title = some raw ∧
      bib_title e = some (pyStripSetS "\x7b\x7d" raw) ∧
      (mkBibDocument e).identifier.title ≠ bib_title e := by
  intro e raw t h1 h2
  have hb : bib_title e = some (pyStripSetS "\x7b\x7d" raw) := by
    simp [bib_title, h1]
  refine ⟨h1, hb, ?_⟩
  show dget e "title" ≠ bib_title e
  rw [h1, hb]
  simp only [ne_eq, Option.some_inj]
  intro hh
  subst h2
  exact stripBraces_ne t hh.symm

/-- Claim C10 witness: for the concrete brace-wrapped title the identifier
title and the accessor title differ. -/
theorem bib_title_identifier_divergence_witness :
    (mkBibDocument [("title", "\x7bX\x7d")]).identifier.title ≠
      bib_title [("title", "\x7bX\x7d")] :=
  (bib_title_identifier_divergence [("title", "\x7bX\x7d")] "\x7bX\x7d" "X"
    rfl (by decide)).2.2
